import Mathlib

/-
Verification of the react-three-store provider (src/index.js): a shallow
embedding of the `ThreeStoreProvider` component and its three operations
`store`, `getStored`, `clearStored`, together with the unmount cleanup
effect, over an explicit world state (URL query parameters, browser
history length, localStorage) and an explicit provider state (the React
`storage` state plus the snapshot of it captured by the `useCallback`
and `useEffect` closures, which are all created with empty dependency
arrays and therefore close over the first-render value).
-/

namespace ThreeStore

/-- Key/value pair lists model both URLSearchParams (which may in general
hold several pairs with the same key, first one visible to get) and plain
JS objects / localStorage (unique keys). -/
abbrev Pairs := List (String × String)

/-- JS truthiness of a string-or-null/undefined value: the empty string,
null and undefined are falsy. -/
def truthy : Option String → Bool
  | some s => !(s == "")
  | none => false

/-- JS `a || b`: returns a if a is truthy, otherwise b. -/
def jsOr (a b : Option String) : Option String :=
  if truthy a then a else b

/-- URLSearchParams.get: the value of the first pair with the given key,
null when absent. -/
def spGet : Pairs → String → Option String
  | [], _ => none
  | p :: rest, k => if p.1 = k then some p.2 else spGet rest k

/-- URLSearchParams.delete: removes every pair with the given key. -/
def spDelete : Pairs → String → Pairs
  | [], _ => []
  | p :: rest, k => if p.1 = k then spDelete rest k else p :: spDelete rest k

/-- URLSearchParams.set: replaces the value of the first pair with the
given key (dropping later duplicates), or appends the pair when absent. -/
def spSet : Pairs → String → String → Pairs
  | [], k, v => [(k, v)]
  | p :: rest, k, v =>
    if p.1 = k then (k, v) :: spDelete rest k
    else p :: spSet rest k v

/-- JS object / localStorage read: `obj[k]`, `localStorage.getItem(k)`. -/
def objGet : Pairs → String → Option String
  | [], _ => none
  | p :: rest, k => if p.1 = k then some p.2 else objGet rest k

/-- JS object spread update `{...obj, [k]: v}`, `localStorage.setItem`:
update the value in place when the key exists, otherwise append. Object
keys are unique, so no duplicate handling is needed. -/
def objSet : Pairs → String → String → Pairs
  | [], k, v => [(k, v)]
  | p :: rest, k, v =>
    if p.1 = k then (k, v) :: rest
    else p :: objSet rest k v

/-- JS `delete obj[k]`, `localStorage.removeItem(k)`. -/
def objDelete : Pairs → String → Pairs
  | [], _ => []
  | p :: rest, k => if p.1 = k then objDelete rest k else p :: objDelete rest k

/-- JS `Object.keys`. -/
def objKeys (ps : Pairs) : List String :=
  ps.map Prod.fst

/-- The browser-visible world: whether a window/page execution context
exists (false during server-side rendering), the current address's query
parameters, the number of session-history entries, and localStorage. -/
structure World where
  hasWindow : Bool
  urlParams : Pairs
  historyLength : Nat
  localStore : Pairs
deriving DecidableEq, Repr

/-- The five provider-level props of `ThreeStoreProvider`. -/
structure Props where
  skipUrl : Bool
  skipLocalStore : Bool
  skipState : Bool
  clearUrlParamsOnUnmount : Bool
  clearLocalStoreOnUnmount : Bool
deriving DecidableEq, Repr

/-- Per-call options of `store`; absent fields are undefined, hence falsy. -/
structure Options where
  skipUrl : Bool
  skipState : Bool
  skipLocalStore : Bool
deriving DecidableEq, Repr

/-- `options ?? {}` with no flag set. -/
def Options.noneSet : Options := ⟨false, false, false⟩

/-- Provider-side state: `storage` is the live React state (as updated by
the functional `setStorage` updaters), while `mountStorage` is the value
of the `storage` binding captured by the `useCallback`/`useEffect`
closures — all created with empty dependency arrays, so they close over
the first-render value of `storage`, which is the `useState({})` initial
empty object. -/
structure ProviderState where
  storage : Pairs
  mountStorage : Pairs
deriving DecidableEq, Repr

/-- A freshly mounted provider: empty state, empty captured snapshot. -/
def mount : ProviderState := ⟨[], []⟩

/-- Result of a `store` call; `crashed` records that the call threw
(ReferenceError on `window.localStorage` in a windowless context). -/
structure StoreResult where
  world : World
  provider : ProviderState
  crashed : Bool
deriving DecidableEq, Repr

/-- `store(storable, options)` from src/index.js lines 67-83:
1. if `!skipUrl && !options.skipUrl && typeof window !== 'undefined'`,
   set `key=value` on the address's search params and commit with
   `history.pushState` (adding one history entry);
2. if `!skipState && !options.skipState`, merge `{key: value}` into the
   React state via a functional updater (applies to the live state);
3. if `!skipLocalStore && !options.skipLocalStore`, call
   `window.localStorage.setItem` — with NO window guard, so in a
   windowless context this line throws a ReferenceError. -/
def store (props : Props) (opts : Options) (w : World) (pv : ProviderState)
    (storable : String × String) : StoreResult :=
  let w1 :=
    if !props.skipUrl && !opts.skipUrl && w.hasWindow then
      { w with urlParams := spSet w.urlParams storable.1 storable.2,
               historyLength := w.historyLength + 1 }
    else w
  let pv1 :=
    if !props.skipState && !opts.skipState then
      { pv with storage := objSet pv.storage storable.1 storable.2 }
    else pv
  if !props.skipLocalStore && !opts.skipLocalStore then
    if w1.hasWindow then
      ⟨{ w1 with localStore := objSet w1.localStore storable.1 storable.2 }, pv1, false⟩
    else
      ⟨w1, pv1, true⟩
  else
    ⟨w1, pv1, false⟩

/-- `getStored(key)` from src/index.js lines 85-100: when a window
exists it returns the URL query value unconditionally (even when null);
the state/localStorage fallback below that return is only reachable in a
windowless context, and its `storage[key]` read goes through the stale
first-render closure (`useCallback` with `[]`), i.e. `mountStorage`. -/
def getStored (w : World) (pv : ProviderState) (key : String) : Option String :=
  if w.hasWindow then
    spGet w.urlParams key
  else
    let stateValue := objGet pv.mountStorage key
    let localStoreValue := if w.hasWindow then objGet w.localStore key else none
    jsOr stateValue (jsOr localStoreValue none)

/-- `clearStored(key)` from src/index.js lines 101-118: delete the key
from the URL (committing with `history.pushState`), from the live React
state (functional updater), and from localStorage; the two browser
accesses are guarded by the window check. Not gated by any skip flag. -/
def clearStored (w : World) (pv : ProviderState) (key : String) :
    World × ProviderState :=
  let w1 :=
    if w.hasWindow then
      { w with urlParams := spDelete w.urlParams key,
               historyLength := w.historyLength + 1 }
    else w
  let pv1 := { pv with storage := objDelete pv.storage key }
  let w2 :=
    if w1.hasWindow then
      { w1 with localStore := objDelete w1.localStore key }
    else w1
  (w2, pv1)

/-- Result of the unmount cleanup; `crashed` records the call of the
nonexistent `window.localStorage.delete` method (a TypeError whenever it
is reached, a ReferenceError in a windowless context). -/
structure CleanupResult where
  world : World
  crashed : Bool
deriving DecidableEq, Repr

/-- The `useEffect(() => () => {...}, [])` cleanup from src/index.js
lines 42-60. `cleanupKeys = Object.keys(storage)` reads the `storage`
binding captured by the effect closure — registered once with `[]` deps,
so it is the first-render (empty) state, `mountStorage`. The URL
deletions are always computed on a fresh URL object but committed with
`history.pushState` only when `clearUrlParamsOnUnmount` is set. The
localStorage loop calls `window.localStorage.delete(key)`, which is not
a function: it throws on the first key whenever the flag is set and
there is at least one key. -/
def cleanup (props : Props) (w : World) (pv : ProviderState) : CleanupResult :=
  let cleanupKeys := objKeys pv.mountStorage
  let w1 :=
    if w.hasWindow then
      let cleaned := cleanupKeys.foldl (fun ps k => spDelete ps k) w.urlParams
      if props.clearUrlParamsOnUnmount then
        { w with urlParams := cleaned, historyLength := w.historyLength + 1 }
      else w
    else w
  if props.clearLocalStoreOnUnmount && !cleanupKeys.isEmpty then
    ⟨w1, true⟩
  else
    ⟨w1, false⟩

/-- The observable state named by the idempotence property: URL query
parameters, reactive-state mapping, durable storage. -/
def observable (w : World) (pv : ProviderState) : Pairs × Pairs × Pairs :=
  (w.urlParams, pv.storage, w.localStore)

theorem spGet_spDelete (ps : Pairs) (k : String) :
    spGet (spDelete ps k) k = none := by
  induction ps with
  | nil => rfl
  | cons p rest ih =>
    by_cases h : p.1 = k
    · simpa [spDelete, h] using ih
    · simpa [spDelete, h, spGet] using ih

theorem spGet_spDelete_ne (ps : Pairs) (k k2 : String) (h : k2 ≠ k) :
    spGet (spDelete ps k) k2 = spGet ps k2 := by
  induction ps with
  | nil => rfl
  | cons p rest ih =>
    by_cases hp : p.1 = k
    · have hk2 : ¬ k = k2 := fun hc => h hc.symm
      have hp2 : ¬ p.1 = k2 := by
        intro hc
        exact h (hc ▸ hp)
      simpa [spDelete, hp, spGet, hp2, hk2] using ih
    · by_cases hp2 : p.1 = k2
      · simp [spDelete, hp, spGet, hp2, h]
      · simpa [spDelete, hp, spGet, hp2] using ih

theorem spDelete_spDelete (ps : Pairs) (k : String) :
    spDelete (spDelete ps k) k = spDelete ps k := by
  induction ps with
  | nil => rfl
  | cons p rest ih =>
    by_cases h : p.1 = k
    · simpa [spDelete, h] using ih
    · simp [spDelete, h, ih]

theorem spGet_spSet (ps : Pairs) (k v : String) :
    spGet (spSet ps k v) k = some v := by
  induction ps with
  | nil => simp [spSet, spGet]
  | cons p rest ih =>
    by_cases h : p.1 = k
    · simp [spSet, h, spGet]
    · simpa [spSet, h, spGet] using ih

theorem spGet_spSet_ne (ps : Pairs) (k v k2 : String) (h : k2 ≠ k) :
    spGet (spSet ps k v) k2 = spGet ps k2 := by
  have hk2 : ¬ k = k2 := fun hc => h hc.symm
  induction ps with
  | nil => simp [spSet, spGet, hk2]
  | cons p rest ih =>
    by_cases hp : p.1 = k
    · have hp2 : ¬ p.1 = k2 := by
        intro hc
        exact h (hc ▸ hp)
      simp [spSet, hp, spGet, hk2, hp2, spGet_spDelete_ne rest k k2 h]
    · by_cases hp2 : p.1 = k2
      · simp [spSet, hp, spGet, hp2, h]
      · simpa [spSet, hp, spGet, hp2] using ih

theorem spSet_spSet (ps : Pairs) (k v : String) :
    spSet (spSet ps k v) k v = spSet ps k v := by
  induction ps with
  | nil => simp [spSet, spDelete]
  | cons p rest ih =>
    by_cases h : p.1 = k
    · simp [spSet, h, spDelete_spDelete]
    · simpa [spSet, h] using ih

theorem objGet_objDelete (ps : Pairs) (k : String) :
    objGet (objDelete ps k) k = none := by
  induction ps with
  | nil => rfl
  | cons p rest ih =>
    by_cases h : p.1 = k
    · simpa [objDelete, h] using ih
    · simpa [objDelete, h, objGet] using ih

theorem objGet_objDelete_ne (ps : Pairs) (k k2 : String) (h : k2 ≠ k) :
    objGet (objDelete ps k) k2 = objGet ps k2 := by
  induction ps with
  | nil => rfl
  | cons p rest ih =>
    by_cases hp : p.1 = k
    · have hk2 : ¬ k = k2 := fun hc => h hc.symm
      have hp2 : ¬ p.1 = k2 := by
        intro hc
        exact h (hc ▸ hp)
      simpa [objDelete, hp, objGet, hp2, hk2] using ih
    · by_cases hp2 : p.1 = k2
      · simp [objDelete, hp, objGet, hp2, h]
      · simpa [objDelete, hp, objGet, hp2] using ih

theorem objGet_objSet (ps : Pairs) (k v : String) :
    objGet (objSet ps k v) k = some v := by
  induction ps with
  | nil => simp [objSet, objGet]
  | cons p rest ih =>
    by_cases h : p.1 = k
    · simp [objSet, h, objGet]
    · simpa [objSet, h, objGet] using ih

theorem objGet_objSet_ne (ps : Pairs) (k v k2 : String) (h : k2 ≠ k) :
    objGet (objSet ps k v) k2 = objGet ps k2 := by
  have hk2 : ¬ k = k2 := fun hc => h hc.symm
  induction ps with
  | nil => simp [objSet, objGet, hk2]
  | cons p rest ih =>
    by_cases hp : p.1 = k
    · have hp2 : ¬ p.1 = k2 := by
        intro hc
        exact h (hc ▸ hp)
      simp [objSet, hp, objGet, hk2, hp2]
    · by_cases hp2 : p.1 = k2
      · simp [objSet, hp, objGet, hp2, h]
      · simpa [objSet, hp, objGet, hp2] using ih

theorem objSet_objSet (ps : Pairs) (k v : String) :
    objSet (objSet ps k v) k v = objSet ps k v := by
  induction ps with
  | nil => simp [objSet]
  | cons p rest ih =>
    by_cases h : p.1 = k
    · simp [objSet, h]
    · simpa [objSet, h] using ih

theorem store_eq (props : Props) (opts : Options) (w : World)
    (pv : ProviderState) (s : String × String) :
    store props opts w pv s =
      ⟨⟨w.hasWindow,
        (if !props.skipUrl && !opts.skipUrl && w.hasWindow then
          spSet w.urlParams s.1 s.2 else w.urlParams),
        (if !props.skipUrl && !opts.skipUrl && w.hasWindow then
          w.historyLength + 1 else w.historyLength),
        (if (!props.skipLocalStore && !opts.skipLocalStore) && w.hasWindow then
          objSet w.localStore s.1 s.2 else w.localStore)⟩,
       ⟨(if !props.skipState && !opts.skipState then
          objSet pv.storage s.1 s.2 else pv.storage), pv.mountStorage⟩,
       ((!props.skipLocalStore && !opts.skipLocalStore) && !w.hasWindow)⟩ := by
  obtain ⟨hwin, up, hLen, ls⟩ := w
  cases hpu : props.skipUrl <;> cases hou : opts.skipUrl <;>
  cases hps : props.skipState <;> cases hos : opts.skipState <;>
  cases hpl : props.skipLocalStore <;> cases hol : opts.skipLocalStore <;>
  cases hwin <;>
    simp [store, hpu, hou, hps, hos, hpl, hol]

theorem clearStored_eq (w : World) (pv : ProviderState) (k : String) :
    clearStored w pv k =
      (⟨w.hasWindow,
        (if w.hasWindow then spDelete w.urlParams k else w.urlParams),
        (if w.hasWindow then w.historyLength + 1 else w.historyLength),
        (if w.hasWindow then objDelete w.localStore k else w.localStore)⟩,
       ⟨objDelete pv.storage k, pv.mountStorage⟩) := by
  obtain ⟨hwin, up, hLen, ls⟩ := w
  cases hwin <;> simp [clearStored]

theorem store_hasWindow (props : Props) (opts : Options) (w : World)
    (pv : ProviderState) (s : String × String) :
    (store props opts w pv s).world.hasWindow = w.hasWindow := by
  rw [store_eq]

theorem store_urlParams (props : Props) (opts : Options) (w : World)
    (pv : ProviderState) (s : String × String) :
    (store props opts w pv s).world.urlParams =
      if !props.skipUrl && !opts.skipUrl && w.hasWindow then
        spSet w.urlParams s.1 s.2
      else w.urlParams := by
  rw [store_eq]

theorem store_historyLength (props : Props) (opts : Options) (w : World)
    (pv : ProviderState) (s : String × String) :
    (store props opts w pv s).world.historyLength =
      if !props.skipUrl && !opts.skipUrl && w.hasWindow then
        w.historyLength + 1
      else w.historyLength := by
  rw [store_eq]

theorem store_localStore (props : Props) (opts : Options) (w : World)
    (pv : ProviderState) (s : String × String) :
    (store props opts w pv s).world.localStore =
      if (!props.skipLocalStore && !opts.skipLocalStore) && w.hasWindow then
        objSet w.localStore s.1 s.2
      else w.localStore := by
  rw [store_eq]

theorem store_storage (props : Props) (opts : Options) (w : World)
    (pv : ProviderState) (s : String × String) :
    (store props opts w pv s).provider.storage =
      if !props.skipState && !opts.skipState then
        objSet pv.storage s.1 s.2
      else pv.storage := by
  rw [store_eq]

theorem store_mountStorage (props : Props) (opts : Options) (w : World)
    (pv : ProviderState) (s : String × String) :
    (store props opts w pv s).provider.mountStorage = pv.mountStorage := by
  rw [store_eq]

theorem store_crashed_eq (props : Props) (opts : Options) (w : World)
    (pv : ProviderState) (s : String × String) :
    (store props opts w pv s).crashed =
      ((!props.skipLocalStore && !opts.skipLocalStore) && !w.hasWindow) := by
  rw [store_eq]

theorem clearStored_hasWindow (w : World) (pv : ProviderState) (k : String) :
    (clearStored w pv k).1.hasWindow = w.hasWindow := by
  rw [clearStored_eq]

theorem clearStored_urlParams (w : World) (pv : ProviderState) (k : String) :
    (clearStored w pv k).1.urlParams =
      if w.hasWindow then spDelete w.urlParams k else w.urlParams := by
  rw [clearStored_eq]

theorem clearStored_historyLength (w : World) (pv : ProviderState) (k : String) :
    (clearStored w pv k).1.historyLength =
      if w.hasWindow then w.historyLength + 1 else w.historyLength := by
  rw [clearStored_eq]

theorem clearStored_localStore (w : World) (pv : ProviderState) (k : String) :
    (clearStored w pv k).1.localStore =
      if w.hasWindow then objDelete w.localStore k else w.localStore := by
  rw [clearStored_eq]

theorem clearStored_storage (w : World) (pv : ProviderState) (k : String) :
    (clearStored w pv k).2.storage = objDelete pv.storage k := by
  rw [clearStored_eq]

theorem clearStored_mountStorage (w : World) (pv : ProviderState) (k : String) :
    (clearStored w pv k).2.mountStorage = pv.mountStorage := by
  rw [clearStored_eq]

/-- Claim C1, code behavior at the failing input: with a window present,
the URL holding no value for the key, and durable storage holding "B"
for it, getStored returns null instead of the first non-null value "B"
of the priority chain — the URL branch returns unconditionally, so the
state and durable-storage steps never run. -/
theorem getStored_no_fallthrough :
    getStored ⟨true, [], 0, [("k", "B")]⟩ mount "k" = none ∧
      objGet (World.mk true [] 0 [("k", "B")]).localStore "k" = some "B" := by
  constructor <;> decide

/-- Claim C2: with every suppression flag false (provider-level and
per-call) and a window context present, store([key, value]) completes
without error and a following getStored(key) returns value. -/
theorem store_then_getStored_roundtrip (props : Props) (opts : Options)
    (w : World) (pv : ProviderState) (k v : String)
    (hpu : props.skipUrl = false) (hpl : props.skipLocalStore = false)
    (hps : props.skipState = false) (hou : opts.skipUrl = false)
    (hol : opts.skipLocalStore = false) (hos : opts.skipState = false)
    (hw : w.hasWindow = true) :
    (store props opts w pv (k, v)).crashed = false ∧
      getStored (store props opts w pv (k, v)).world
        (store props opts w pv (k, v)).provider k = some v := by
  constructor
  · simp [store_crashed_eq, hpl, hol, hw]
  · simp [getStored, store_hasWindow, store_urlParams, hpu, hou, hw,
      spGet_spSet]

/-- Witness for the C2 theorem at a concrete input. -/
theorem store_then_getStored_roundtrip_witness :
    (store ⟨false, false, false, false, false⟩ Options.noneSet
        ⟨true, [], 0, []⟩ mount ("a", "1")).crashed = false ∧
      getStored (store ⟨false, false, false, false, false⟩ Options.noneSet
          ⟨true, [], 0, []⟩ mount ("a", "1")).world
        (store ⟨false, false, false, false, false⟩ Options.noneSet
          ⟨true, [], 0, []⟩ mount ("a", "1")).provider "a" = some "1" :=
  store_then_getStored_roundtrip ⟨false, false, false, false, false⟩
    Options.noneSet ⟨true, [], 0, []⟩ mount "a" "1" rfl rfl rfl rfl rfl rfl rfl

/-- Claim C3, code behavior at the failing input: mount, store(["x","1"]),
then unmount with clearUrlParamsOnUnmount=true and
clearLocalStoreOnUnmount=false. The effect cleanup closure captured the
empty first-render state, so the computed key set is empty and nothing
is deleted: after teardown the URL still contains x=1 (the claim says
the URL no longer contains x); durable storage still contains x=1. -/
theorem teardown_misses_stored_keys :
    spGet (cleanup ⟨false, false, false, true, false⟩
        (store ⟨false, false, false, true, false⟩ Options.noneSet
          ⟨true, [], 0, []⟩ mount ("x", "1")).world
        (store ⟨false, false, false, true, false⟩ Options.noneSet
          ⟨true, [], 0, []⟩ mount ("x", "1")).provider).world.urlParams
      "x" = some "1" ∧
    objGet (cleanup ⟨false, false, false, true, false⟩
        (store ⟨false, false, false, true, false⟩ Options.noneSet
          ⟨true, [], 0, []⟩ mount ("x", "1")).world
        (store ⟨false, false, false, true, false⟩ Options.noneSet
          ⟨true, [], 0, []⟩ mount ("x", "1")).provider).world.localStore
      "x" = some "1" := by
  constructor <;> decide

/-- Claim C4: clearStored(key) is unconditional — not gated by any
suppression flag — and afterwards getStored(key) returns null, for every
world and every provider whose closure snapshot is the mount-time empty
mapping (true of every mounted provider: nothing ever rebuilds the
callbacks). -/
theorem clearStored_then_getStored_null (w : World) (pv : ProviderState)
    (k : String) (hmount : pv.mountStorage = []) :
    getStored (clearStored w pv k).1 (clearStored w pv k).2 k = none := by
  cases hw : w.hasWindow with
  | true =>
    simp [getStored, clearStored_hasWindow, clearStored_urlParams, hw,
      spGet_spDelete]
  | false =>
    simp [getStored, clearStored_hasWindow, clearStored_mountStorage, hw,
      hmount, objGet, jsOr, truthy]

/-- Witness for the C4 theorem at a concrete input where the key was
present in all three locations. -/
theorem clearStored_then_getStored_null_witness :
    getStored (clearStored ⟨true, [("x", "1")], 0, [("x", "1")]⟩
        ⟨[("x", "1")], []⟩ "x").1
      (clearStored ⟨true, [("x", "1")], 0, [("x", "1")]⟩
        ⟨[("x", "1")], []⟩ "x").2 "x" = none :=
  clearStored_then_getStored_null ⟨true, [("x", "1")], 0, [("x", "1")]⟩
    ⟨[("x", "1")], []⟩ "x" rfl

/-- Claim C5, code behavior at the failing input: in a windowless
context with no suppression flag set, store skips the guarded URL access
but reaches window.localStorage.setItem, which has no window guard, and
crashes — it does not fall back silently to the reactive-state step. -/
theorem store_ssr_localStorage_crash :
    (store ⟨false, false, false, false, false⟩ Options.noneSet
        ⟨false, [], 0, []⟩ mount ("k", "v")).crashed = true ∧
      (store ⟨false, false, false, false, false⟩ Options.noneSet
        ⟨false, [], 0, []⟩ mount ("k", "v")).world.urlParams = [] := by
  constructor <;> decide

/-- Claim C6 counterexample: with provider-level skipUrl=true and a
per-call skipUrl=false, the claim says the URL write runs; but no query
parameter is written and no history entry is added at this concrete
input — the per-call value cannot re-enable the step. -/
theorem percall_no_reenable :
    (store ⟨true, false, false, false, false⟩ ⟨false, false, false⟩
        ⟨true, [], 0, []⟩ mount ("k", "v")).world.urlParams = [] ∧
      (store ⟨true, false, false, false, false⟩ ⟨false, false, false⟩
        ⟨true, [], 0, []⟩ mount ("k", "v")).world.historyLength = 0 := by
  constructor <;> decide

/-- Claim C6 amended: each store step is gated by the conjunction of the
provider-level flag and the per-call flag — the step runs iff both are
false. A per-call flag can only add suppression; it cannot re-enable a
step suppressed at the provider level. -/
theorem store_flags_conjunction (props : Props) (opts : Options)
    (w : World) (pv : ProviderState) (k v : String)
    (hw : w.hasWindow = true) :
    ((store props opts w pv (k, v)).world.urlParams =
      if !props.skipUrl && !opts.skipUrl then spSet w.urlParams k v
      else w.urlParams) ∧
    ((store props opts w pv (k, v)).provider.storage =
      if !props.skipState && !opts.skipState then objSet pv.storage k v
      else pv.storage) ∧
    ((store props opts w pv (k, v)).world.localStore =
      if !props.skipLocalStore && !opts.skipLocalStore then
        objSet w.localStore k v
      else w.localStore) := by
  refine ⟨?_, ?_, ?_⟩
  · simp [store_urlParams, hw]
  · simp [store_storage]
  · simp [store_localStore, hw]

/-- Witness for the C6 amended theorem at a concrete input with the URL
step provider-suppressed and the other steps enabled. -/
theorem store_flags_conjunction_witness :
    ((store ⟨true, false, false, false, false⟩ Options.noneSet
        ⟨true, [("u", "0")], 0, []⟩ mount ("k", "v")).world.urlParams =
      [("u", "0")]) ∧
    ((store ⟨true, false, false, false, false⟩ Options.noneSet
        ⟨true, [("u", "0")], 0, []⟩ mount ("k", "v")).provider.storage =
      [("k", "v")]) ∧
    ((store ⟨true, false, false, false, false⟩ Options.noneSet
        ⟨true, [("u", "0")], 0, []⟩ mount ("k", "v")).world.localStore =
      [("k", "v")]) := by
  simpa [Options.noneSet, objSet] using
    store_flags_conjunction ⟨true, false, false, false, false⟩
      Options.noneSet ⟨true, [("u", "0")], 0, []⟩ mount "k" "v" rfl

/-- Claim C7 counterexample: a store URL write performed at history
length 0 leaves history length 1: history.pushState adds a new session
history entry, so the browser history length is not unchanged. -/
theorem store_adds_history_entry :
    (store ⟨false, false, false, false, false⟩ Options.noneSet
        ⟨true, [], 0, []⟩ mount ("k", "v")).world.historyLength ≠
      (World.mk true [] 0 []).historyLength := by
  decide

/-- Claim C7 amended: every committed URL write of store and clearStored
is a same-document address update via history.pushState: no navigation
(the window context is preserved), but one new history entry is added —
the history length afterwards is the previous length plus one. -/
theorem url_write_pushes_one_entry (props : Props) (opts : Options)
    (w : World) (pv : ProviderState) (k v : String)
    (hpu : props.skipUrl = false) (hou : opts.skipUrl = false)
    (hw : w.hasWindow = true) :
    ((store props opts w pv (k, v)).world.historyLength =
        w.historyLength + 1 ∧
      (store props opts w pv (k, v)).world.hasWindow = w.hasWindow) ∧
    ((clearStored w pv k).1.historyLength = w.historyLength + 1 ∧
      (clearStored w pv k).1.hasWindow = w.hasWindow) := by
  refine ⟨⟨?_, ?_⟩, ?_, ?_⟩
  · simp [store_historyLength, hpu, hou, hw]
  · simp [store_hasWindow]
  · simp [clearStored_historyLength, hw]
  · simp [clearStored_hasWindow]

/-- Witness for the C7 amended theorem at a concrete input. -/
theorem url_write_pushes_one_entry_witness :
    ((store ⟨false, false, false, false, false⟩ Options.noneSet
        ⟨true, [], 0, []⟩ mount ("k", "v")).world.historyLength = 0 + 1 ∧
      (store ⟨false, false, false, false, false⟩ Options.noneSet
        ⟨true, [], 0, []⟩ mount ("k", "v")).world.hasWindow = true) ∧
    ((clearStored ⟨true, [], 0, []⟩ mount "k").1.historyLength = 0 + 1 ∧
      (clearStored ⟨true, [], 0, []⟩ mount "k").1.hasWindow = true) :=
  url_write_pushes_one_entry ⟨false, false, false, false, false⟩
    Options.noneSet ⟨true, [], 0, []⟩ mount "k" "v" rfl rfl rfl

/-- Claim C8: with durable storage suppressed (at provider level or per
call) and the URL and state flags false, store leaves localStorage
entirely unchanged while the URL query parameter and the reactive-state
entry for the key are set to the value (window context present). -/
theorem store_localStore_suppression_independent (props : Props)
    (opts : Options) (w : World) (pv : ProviderState) (k v : String)
    (hls : props.skipLocalStore = true ∨ opts.skipLocalStore = true)
    (hpu : props.skipUrl = false) (hou : opts.skipUrl = false)
    (hps : props.skipState = false) (hos : opts.skipState = false)
    (hw : w.hasWindow = true) :
    (store props opts w pv (k, v)).world.localStore = w.localStore ∧
      spGet (store props opts w pv (k, v)).world.urlParams k = some v ∧
      objGet (store props opts w pv (k, v)).provider.storage k = some v := by
  refine ⟨?_, ?_, ?_⟩
  · rcases hls with h | h <;> simp [store_localStore, h]
  · simp [store_urlParams, hpu, hou, hw, spGet_spSet]
  · simp [store_storage, hps, hos, objGet_objSet]

/-- Witness for the C8 theorem at a concrete input with provider-level
skipLocalStore=true. -/
theorem store_localStore_suppression_independent_witness :
    (store ⟨false, true, false, false, false⟩ Options.noneSet
        ⟨true, [], 0, [("p", "9")]⟩ mount ("k", "v")).world.localStore =
      [("p", "9")] ∧
      spGet (store ⟨false, true, false, false, false⟩ Options.noneSet
        ⟨true, [], 0, [("p", "9")]⟩ mount ("k", "v")).world.urlParams "k" =
        some "v" ∧
      objGet (store ⟨false, true, false, false, false⟩ Options.noneSet
        ⟨true, [], 0, [("p", "9")]⟩ mount ("k", "v")).provider.storage "k" =
        some "v" :=
  store_localStore_suppression_independent ⟨false, true, false, false, false⟩
    Options.noneSet ⟨true, [], 0, [("p", "9")]⟩ mount "k" "v" (Or.inl rfl)
    rfl rfl rfl rfl rfl

/-- Claim C9: store is idempotent on the observable state (URL query
parameters, reactive-state mapping, durable storage): in a window
context, for any flag configuration, storing the same pair twice yields
the same observable state as storing it once. -/
theorem store_idempotent (props : Props) (opts : Options) (w : World)
    (pv : ProviderState) (k v : String) (hw : w.hasWindow = true) :
    observable
        (store props opts (store props opts w pv (k, v)).world
          (store props opts w pv (k, v)).provider (k, v)).world
        (store props opts (store props opts w pv (k, v)).world
          (store props opts w pv (k, v)).provider (k, v)).provider =
      observable (store props opts w pv (k, v)).world
        (store props opts w pv (k, v)).provider := by
  cases hc1 : (!props.skipUrl && !opts.skipUrl) <;>
  cases hc2 : (!props.skipState && !opts.skipState) <;>
  cases hc3 : (!props.skipLocalStore && !opts.skipLocalStore) <;>
    simp [observable, store_urlParams, store_storage, store_localStore,
      store_hasWindow, hw, hc1, hc2, hc3, spSet_spSet, objSet_objSet]

/-- Witness for the C9 theorem at a concrete input. -/
theorem store_idempotent_witness :
    observable
        (store ⟨false, false, false, false, false⟩ Options.noneSet
          (store ⟨false, false, false, false, false⟩ Options.noneSet
            ⟨true, [], 0, []⟩ mount ("a", "1")).world
          (store ⟨false, false, false, false, false⟩ Options.noneSet
            ⟨true, [], 0, []⟩ mount ("a", "1")).provider ("a", "1")).world
        (store ⟨false, false, false, false, false⟩ Options.noneSet
          (store ⟨false, false, false, false, false⟩ Options.noneSet
            ⟨true, [], 0, []⟩ mount ("a", "1")).world
          (store ⟨false, false, false, false, false⟩ Options.noneSet
            ⟨true, [], 0, []⟩ mount ("a", "1")).provider ("a", "1")).provider =
      observable (store ⟨false, false, false, false, false⟩ Options.noneSet
          ⟨true, [], 0, []⟩ mount ("a", "1")).world
        (store ⟨false, false, false, false, false⟩ Options.noneSet
          ⟨true, [], 0, []⟩ mount ("a", "1")).provider :=
  store_idempotent ⟨false, false, false, false, false⟩ Options.noneSet
    ⟨true, [], 0, []⟩ mount "a" "1" rfl

/-- Claim C10: for any other key, store([k, v]) and clearStored(k) leave
its value unchanged in all three locations — URL query parameters,
reactive-state mapping, durable storage — for any flag configuration and
any execution context. -/
theorem store_clearStored_frame (props : Props) (opts : Options)
    (w : World) (pv : ProviderState) (k v k2 : String) (hne : k2 ≠ k) :
    (spGet (store props opts w pv (k, v)).world.urlParams k2 =
        spGet w.urlParams k2 ∧
      objGet (store props opts w pv (k, v)).provider.storage k2 =
        objGet pv.storage k2 ∧
      objGet (store props opts w pv (k, v)).world.localStore k2 =
        objGet w.localStore k2) ∧
    (spGet (clearStored w pv k).1.urlParams k2 = spGet w.urlParams k2 ∧
      objGet (clearStored w pv k).2.storage k2 = objGet pv.storage k2 ∧
      objGet (clearStored w pv k).1.localStore k2 =
        objGet w.localStore k2) := by
  refine ⟨⟨?_, ?_, ?_⟩, ?_, ?_, ?_⟩
  · rw [store_urlParams]
    split <;> simp [spGet_spSet_ne _ _ _ _ hne]
  · rw [store_storage]
    split <;> simp [objGet_objSet_ne _ _ _ _ hne]
  · rw [store_localStore]
    split <;> simp [objGet_objSet_ne _ _ _ _ hne]
  · rw [clearStored_urlParams]
    split <;> simp [spGet_spDelete_ne _ _ _ hne]
  · rw [clearStored_storage]
    simp [objGet_objDelete_ne _ _ _ hne]
  · rw [clearStored_localStore]
    split <;> simp [objGet_objDelete_ne _ _ _ hne]

/-- Witness for the C10 theorem at a concrete input holding a second
key in all three locations. -/
theorem store_clearStored_frame_witness :
    (spGet (store ⟨false, false, false, false, false⟩ Options.noneSet
        ⟨true, [("b", "2")], 0, [("b", "2")]⟩ ⟨[("b", "2")], []⟩
        ("a", "1")).world.urlParams "b" =
        spGet [("b", "2")] "b" ∧
      objGet (store ⟨false, false, false, false, false⟩ Options.noneSet
        ⟨true, [("b", "2")], 0, [("b", "2")]⟩ ⟨[("b", "2")], []⟩
        ("a", "1")).provider.storage "b" = objGet [("b", "2")] "b" ∧
      objGet (store ⟨false, false, false, false, false⟩ Options.noneSet
        ⟨true, [("b", "2")], 0, [("b", "2")]⟩ ⟨[("b", "2")], []⟩
        ("a", "1")).world.localStore "b" = objGet [("b", "2")] "b") ∧
    (spGet (clearStored ⟨true, [("b", "2")], 0, [("b", "2")]⟩
        ⟨[("b", "2")], []⟩ "a").1.urlParams "b" = spGet [("b", "2")] "b" ∧
      objGet (clearStored ⟨true, [("b", "2")], 0, [("b", "2")]⟩
        ⟨[("b", "2")], []⟩ "a").2.storage "b" = objGet [("b", "2")] "b" ∧
      objGet (clearStored ⟨true, [("b", "2")], 0, [("b", "2")]⟩
        ⟨[("b", "2")], []⟩ "a").1.localStore "b" =
        objGet [("b", "2")] "b") :=
  store_clearStored_frame ⟨false, false, false, false, false⟩
    Options.noneSet ⟨true, [("b", "2")], 0, [("b", "2")]⟩ ⟨[("b", "2")], []⟩
    "a" "1" "b" (by decide)

end ThreeStore
